import Mathlib

/-!
Verification of the mailroom session and run model (core/models/runs.go and
the session operations described by the design document) against its
specification. Data is embedded shallowly: Go string-typed statuses become
Lean strings, timestamps become natural numbers (abstract instants),
nullable columns become options, and the database tables touched by the
bulk SQL statements become lists of row records. SQL UPDATE statements
become row-transformer functions mapped over the table.
-/

namespace Mailroom

/-- Persisted run status vocabulary (Go: type RunStatus string). -/
abbrev RunStatus := String

def RunStatusActive : RunStatus := "A"

def RunStatusWaiting : RunStatus := "W"

def RunStatusCompleted : RunStatus := "C"

def RunStatusExpired : RunStatus := "X"

def RunStatusInterrupted : RunStatus := "I"

def RunStatusFailed : RunStatus := "F"

/-- Engine-level run status tokens of the goflow library (flows.RunStatus). -/
def FlowsRunStatusActive : String := "active"

def FlowsRunStatusWaiting : String := "waiting"

def FlowsRunStatusCompleted : String := "completed"

def FlowsRunStatusExpired : String := "expired"

def FlowsRunStatusFailed : String := "failed"

/-- The Go map runStatusMap from engine run status to persisted run status.
A Go map lookup on a missing key yields the zero value, here the empty
string. -/
def runStatusMap (s : String) : RunStatus :=
  if s = FlowsRunStatusActive then RunStatusActive
  else if s = FlowsRunStatusWaiting then RunStatusWaiting
  else if s = FlowsRunStatusCompleted then RunStatusCompleted
  else if s = FlowsRunStatusExpired then RunStatusExpired
  else if s = FlowsRunStatusFailed then RunStatusFailed
  else ""

/-- ExitType is null.String in Go: the empty string marshals as SQL NULL. -/
abbrev ExitType := String

def ExitInterrupted : ExitType := "I"

def ExitCompleted : ExitType := "C"

def ExitExpired : ExitType := "E"

def ExitFailed : ExitType := "F"

/-- The Go map runStatusToExitType; missing keys yield the zero value "". -/
def runStatusToExitType (s : RunStatus) : ExitType :=
  if s = RunStatusInterrupted then ExitInterrupted
  else if s = RunStatusCompleted then ExitCompleted
  else if s = RunStatusExpired then ExitExpired
  else if s = RunStatusFailed then ExitFailed
  else ""

/-- events.TypeMsgReceived of the goflow library: the inbound-message event
type scanned for by newRun. -/
def TypeMsgReceived : String := "msg_received"

/-- A persisted path step as serialized by the Step struct in runs.go. -/
structure Step where
  uuid : String
  nodeUUID : String
  arrivedOn : Nat
  exitUUID : String
deriving DecidableEq, Repr

/-- A step of the path of an engine run (flows.Step of goflow), read through its
accessors by newRun. -/
structure EnginePathStep where
  uuid : String
  nodeUUID : String
  arrivedOn : Nat
  exitUUID : String
deriving DecidableEq, Repr

/-- An event emitted by an engine run; newRun only inspects its type. -/
structure EngineEvent where
  type : String
deriving DecidableEq, Repr

/-- The portion of a goflow engine run (flows.Run) read by newRun: status,
timestamps, contact, flow reference, serialized results, events, optional
parent frame identified by its UUID, and path. -/
structure EngineRun where
  uuid : String
  status : String
  createdOn : Nat
  modifiedOn : Nat
  exitedOn : Option Nat
  expiresOn : Option Nat
  contactID : Int
  flowRefUUID : String
  results : String
  events : List EngineEvent
  parentUUID : Option String
  path : List EnginePathStep
deriving DecidableEq, Repr

/-- The inner row struct of the Go FlowRun model. The path column is kept
structurally (the built list of steps) rather than as its JSON rendering;
currentNodeUUID and exitType are null.String, empty meaning NULL. -/
structure FlowRun where
  uuid : String
  status : RunStatus
  createdOn : Nat
  modifiedOn : Nat
  exitedOn : Option Nat
  expiresOn : Option Nat
  responded : Bool
  results : String
  path : List Step
  currentNodeUUID : String
  contactID : Int
  flowID : Int
  orgID : Int
  parentUUID : Option String
  sessionID : Int
  startID : Int
  isActive : Bool
  exitType : ExitType
deriving DecidableEq, Repr

def NilStartID : Int := 0

/-- FlowIDForUUID resolves a flow id from an asset table keyed by flow UUID;
failure to resolve makes newRun fail. -/
def FlowIDForUUID (assets : List (String × Int)) (uuid : String) : Option Int :=
  assets.lookup uuid

/-- The newRun constructor of runs.go: builds the persisted run record from
an engine run. Returns none when the flow UUID cannot be resolved. -/
def newRun (assets : List (String × Int)) (orgID : Int) (sessionID : Int)
    (fr : EngineRun) : Option FlowRun :=
  let path : List Step := fr.path.map (fun p => ⟨p.uuid, p.nodeUUID, p.arrivedOn, p.exitUUID⟩)
  match FlowIDForUUID assets fr.flowRefUUID with
  | none => none
  | some flowID =>
    let status := runStatusMap fr.status
    let currentNodeUUID :=
      match path.getLast? with
      | some st => st.nodeUUID
      | none => ""
    let terminal : Bool := fr.status != FlowsRunStatusActive && fr.status != FlowsRunStatusWaiting
    let exitType := if terminal then runStatusToExitType status else ""
    let isActive := !terminal
    let responded := fr.events.any (fun e => e.type == TypeMsgReceived)
    some
      { uuid := fr.uuid
        status := status
        createdOn := fr.createdOn
        modifiedOn := fr.modifiedOn
        exitedOn := fr.exitedOn
        expiresOn := fr.expiresOn
        responded := responded
        results := fr.results
        path := path
        currentNodeUUID := currentNodeUUID
        contactID := fr.contactID
        flowID := flowID
        orgID := orgID
        parentUUID := fr.parentUUID
        sessionID := sessionID
        startID := NilStartID
        isActive := isActive
        exitType := exitType }

/-- Session status vocabulary. Modelled from the spec: the session status
constants live in sessions.go, which is not among the provided sources; the
spec fixes status char(1) in the set W, C, X, I, F. -/
abbrev SessionStatus := String

def SessionStatusWaiting : SessionStatus := "W"

def SessionStatusCompleted : SessionStatus := "C"

def SessionStatusExpired : SessionStatus := "X"

def SessionStatusInterrupted : SessionStatus := "I"

def SessionStatusFailed : SessionStatus := "F"

/-- A row of the flows_flowrun table, restricted to the columns touched or
read by the bulk operations under verification. -/
structure RunRow where
  id : Int
  sessionID : Int
  status : RunStatus
  isActive : Bool
  exitType : ExitType
  exitedOn : Option Nat
  modifiedOn : Nat
  expiresOn : Option Nat
deriving DecidableEq, Repr

/-- A row of the flows_flowsession table, restricted to the columns touched
or read by the bulk operations under verification. -/
structure SessionRow where
  id : Int
  contactID : Int
  sessionType : String
  status : SessionStatus
  connectionID : Option Int
  currentFlowID : Option Int
  endedOn : Option Nat
  waitStartedOn : Option Nat
  waitExpiresOn : Option Nat
  timeoutOn : Option Nat
deriving DecidableEq, Repr

/-- The relational state seen by the bulk operations: the session and run
tables, plus the connection table reduced to (connection id, channel id)
pairs for channel-scoped interruption. -/
structure Database where
  sessions : List SessionRow
  runs : List RunRow
  connections : List (Int × Int)
deriving DecidableEq, Repr

/-- Row effect of expireRunsSQL in runs.go: SET is_active = FALSE,
exited_on = NOW(), exit_type = 'E', status = 'E', modified_on = NOW().
Note the SQL writes the literal 'E' into the status column. -/
def expireRunsSQLUpdate (now : Nat) (r : RunRow) : RunRow :=
  { r with isActive := false, exitedOn := some now, exitType := "E", status := "E", modifiedOn := now }

/-- Executing expireRunsSQL over the run table: WHERE id = ANY(run ids). -/
def execExpireRuns (now : Nat) (runIDs : List Int) (db : Database) : Database :=
  { db with runs := db.runs.map (fun r => if r.id ∈ runIDs then expireRunsSQLUpdate now r else r) }

/-- Row effect of expireSessionsSQL in runs.go: SET status = 'X',
ended_on = NOW(), wait_started_on = NULL, wait_expires_on = NULL,
timeout_on = NULL, current_flow_id = NULL. -/
def expireSessionsSQLUpdate (now : Nat) (s : SessionRow) : SessionRow :=
  { s with status := "X", endedOn := some now, waitStartedOn := none,
           waitExpiresOn := none, timeoutOn := none, currentFlowID := none }

/-- Executing expireSessionsSQL over the session table: WHERE id = ANY(session ids). -/
def execExpireSessions (now : Nat) (sessionIDs : List Int) (db : Database) : Database :=
  { db with sessions := db.sessions.map (fun s => if s.id ∈ sessionIDs then expireSessionsSQLUpdate now s else s) }

/-- ExpireRunsAndSessions of runs.go on its success path (storage errors are
out of scope of the embedding): returns immediately when the run-id list is
empty; otherwise runs expireRunsSQL, then expireSessionsSQL only when the
session-id list is non-empty, in one transaction. -/
def ExpireRunsAndSessions (now : Nat) (runIDs sessionIDs : List Int) (db : Database) : Database :=
  if runIDs.length = 0 then db
  else
    let db1 := execExpireRuns now runIDs db
    if sessionIDs.length > 0 then execExpireSessions now sessionIDs db1 else db1

/-- RunExpiration of runs.go: SELECT expires_on FROM flows_flowrun WHERE
id = $1 AND status = 'W', scanned into a non-nullable time. No matching row
(sql.ErrNoRows) yields ok none, i.e. the Go pair (nil, nil); a matching row
with NULL expires_on is a scan error; otherwise the expiration is returned. -/
def RunExpiration (db : Database) (runID : Int) : Except String (Option Nat) :=
  match (db.runs.filter (fun r => r.id == runID && r.status == "W")).map RunRow.expiresOn with
  | [] => Except.ok none
  | some t :: _ => Except.ok (some t)
  | none :: _ => Except.error "sql: cannot scan NULL into time.Time"

/-- Modelled from the spec: the row effect on a session of the interruption
operations of section 4.G, which live in sessions.go, not among the provided
sources. Matching rows get status Interrupted, ended-on now, and NULL
wait-started-on, wait-expires-on, timeout-on and current-flow-id. -/
def interruptSessionUpdate (now : Nat) (s : SessionRow) : SessionRow :=
  { s with status := SessionStatusInterrupted, endedOn := some now, waitStartedOn := none,
           waitExpiresOn := none, timeoutOn := none, currentFlowID := none }

/-- Modelled from the spec: the row effect on a run of section 4.G: runs of
the matched sessions whose status is Active or Waiting get status
Interrupted, exited-on now, is-active false and exit-type I. -/
def interruptRunUpdate (now : Nat) (r : RunRow) : RunRow :=
  { r with status := RunStatusInterrupted, exitedOn := some now, isActive := false,
           exitType := ExitInterrupted }

/-- Modelled from the spec: the ids of the sessions matched by an
interruption call — those matching the selector whose status is Waiting. -/
def matchedSessionIDs (sel : SessionRow → Bool) (db : Database) : List Int :=
  (db.sessions.filter (fun s => s.status == SessionStatusWaiting && sel s)).map SessionRow.id

/-- Modelled from the spec: the shared semantics of the four interruption
selectors of section 4.G. Sessions matching the selector and currently
Waiting are updated in one statement; in a second statement the runs of the
matched sessions whose status is Active or Waiting are updated. -/
def interruptSessions (now : Nat) (sel : SessionRow → Bool) (db : Database) : Database :=
  { db with
    sessions := db.sessions.map (fun s =>
      if s.id ∈ matchedSessionIDs sel db then interruptSessionUpdate now s else s),
    runs := db.runs.map (fun r =>
      if r.sessionID ∈ matchedSessionIDs sel db ∧ (r.status = RunStatusActive ∨ r.status = RunStatusWaiting)
      then interruptRunUpdate now r else r) }

/-- Modelled from the spec: interrupt all Waiting sessions of the given
contacts across all flow types (section 4.G, first selector). -/
def InterruptSessionsForContacts (now : Nat) (contactIDs : List Int) (db : Database) : Database :=
  interruptSessions now (fun s => decide (s.contactID ∈ contactIDs)) db

/-- Modelled from the spec: interrupt Waiting sessions of the given contacts
having the given session type (section 4.G, second selector). -/
def InterruptSessionsOfTypeForContacts (now : Nat) (contactIDs : List Int) (sessionType : String)
    (db : Database) : Database :=
  interruptSessions now (fun s => decide (s.contactID ∈ contactIDs) && s.sessionType == sessionType) db

/-- Modelled from the spec: interrupt Waiting sessions whose connection
references a connection on any of the given channels (section 4.G, third
selector). -/
def InterruptSessionsForChannels (now : Nat) (channelIDs : List Int) (db : Database) : Database :=
  interruptSessions now (fun s =>
    match s.connectionID with
    | some connID => db.connections.any (fun c => c.1 == connID && decide (c.2 ∈ channelIDs))
    | none => false) db

/-- Modelled from the spec: interrupt Waiting sessions whose current flow is
among the given flows (section 4.G, fourth selector). -/
def InterruptSessionsForFlows (now : Nat) (flowIDs : List Int) (db : Database) : Database :=
  interruptSessions now (fun s =>
    match s.currentFlowID with
    | some fid => decide (fid ∈ flowIDs)
    | none => false) db

/-- Modelled from the spec: the in-memory Session aggregate fields recomputed
by Session.Update (section 4.F), which lives in sessions.go, not among the
provided sources. -/
structure Session where
  status : SessionStatus
  currentFlowID : Option Int
  responded : Bool
  waitStartedOn : Option Nat
  waitExpiresOn : Option Nat
  timeoutOn : Option Nat
  endedOn : Option Nat
  output : String
deriving DecidableEq, Repr

/-- Modelled from the spec: the post-sprint engine state that Session.Update
reads, reduced to the new values of the recomputed session fields plus
whether the sprint events contain an inbound message. -/
structure Sprint where
  newStatus : SessionStatus
  newCurrentFlowID : Option Int
  hasInput : Bool
  newWaitStartedOn : Option Nat
  newWaitExpiresOn : Option Nat
  newTimeoutOn : Option Nat
  newEndedOn : Option Nat
  newOutput : String
deriving DecidableEq, Repr

/-- Modelled from the spec: Session.Update (section 4.F) recomputes status,
current-flow-id, wait fields, timeout, ended-on and output from the
post-sprint engine state; responded is sticky, so it becomes the OR of its
previous value and whether this sprint received input. -/
def Session.update (s : Session) (sp : Sprint) : Session :=
  { status := sp.newStatus
    currentFlowID := sp.newCurrentFlowID
    responded := s.responded || sp.hasInput
    waitStartedOn := sp.newWaitStartedOn
    waitExpiresOn := sp.newWaitExpiresOn
    timeoutOn := sp.newTimeoutOn
    endedOn := sp.newEndedOn
    output := sp.newOutput }

/-- A sequence of Session.Update calls applied to a session in order. -/
def Session.updateAll (s : Session) (sprints : List Sprint) : Session :=
  sprints.foldl Session.update s

/-! Helper lemmas shared by several claims. -/

/-- Unfolding lemma for newRun on its success path. -/
theorem newRun_some_iff (assets : List (String × Int)) (orgID sessionID : Int)
    (fr : EngineRun) (run : FlowRun) (flowID : Int)
    (hlk : FlowIDForUUID assets fr.flowRefUUID = some flowID)
    (h : newRun assets orgID sessionID fr = some run) :
    run = { uuid := fr.uuid
            status := runStatusMap fr.status
            createdOn := fr.createdOn
            modifiedOn := fr.modifiedOn
            exitedOn := fr.exitedOn
            expiresOn := fr.expiresOn
            responded := fr.events.any (fun e => e.type == TypeMsgReceived)
            results := fr.results
            path := fr.path.map (fun p => ⟨p.uuid, p.nodeUUID, p.arrivedOn, p.exitUUID⟩)
            currentNodeUUID :=
              match (fr.path.map (fun p => (⟨p.uuid, p.nodeUUID, p.arrivedOn, p.exitUUID⟩ : Step))).getLast? with
              | some st => st.nodeUUID
              | none => ""
            contactID := fr.contactID
            flowID := flowID
            orgID := orgID
            parentUUID := fr.parentUUID
            sessionID := sessionID
            startID := NilStartID
            isActive := !(fr.status != FlowsRunStatusActive && fr.status != FlowsRunStatusWaiting)
            exitType :=
              if fr.status != FlowsRunStatusActive && fr.status != FlowsRunStatusWaiting
              then runStatusToExitType (runStatusMap fr.status) else "" } := by
  unfold newRun at h
  rw [hlk] at h
  simp only [Option.some.injEq] at h
  exact h.symm

/-- The engine-to-persisted status translation never yields Interrupted. -/
theorem runStatusMap_ne_interrupted (s : String) : runStatusMap s ≠ RunStatusInterrupted := by
  unfold runStatusMap
  split_ifs <;> decide

/-- Claim C5: the engine-to-persisted run status translation maps Active to
A, Waiting to W, Completed to C, Expired to X and Failed to F, and for no
engine run status does newRun produce the persisted status Interrupted. -/
theorem engine_status_translation_and_no_interrupted :
    (runStatusMap FlowsRunStatusActive = RunStatusActive ∧
     runStatusMap FlowsRunStatusWaiting = RunStatusWaiting ∧
     runStatusMap FlowsRunStatusCompleted = RunStatusCompleted ∧
     runStatusMap FlowsRunStatusExpired = RunStatusExpired ∧
     runStatusMap FlowsRunStatusFailed = RunStatusFailed) ∧
    ∀ (assets : List (String × Int)) (orgID sessionID : Int) (fr : EngineRun),
      (newRun assets orgID sessionID fr).map FlowRun.status ≠ some RunStatusInterrupted := by
  refine ⟨by decide, ?_⟩
  intro assets orgID sessionID fr
  cases hlk : FlowIDForUUID assets fr.flowRefUUID with
  | none =>
    unfold newRun
    rw [hlk]
    simp
  | some flowID =>
    cases hrun : newRun assets orgID sessionID fr with
    | none => simp
    | some run =>
      have hshape := newRun_some_iff assets orgID sessionID fr run flowID hlk hrun
      rw [hshape]
      simp only [Option.map_some', ne_eq, Option.some.injEq]
      exact runStatusMap_ne_interrupted fr.status

/-- A successful newRun implies the flow UUID resolved. -/
theorem newRun_some_flowID (assets : List (String × Int)) (orgID sessionID : Int)
    (fr : EngineRun) (run : FlowRun) (h : newRun assets orgID sessionID fr = some run) :
    ∃ flowID, FlowIDForUUID assets fr.flowRefUUID = some flowID := by
  cases hlk : FlowIDForUUID assets fr.flowRefUUID with
  | none =>
    unfold newRun at h
    rw [hlk] at h
    exact absurd h (by simp)
  | some flowID => exact ⟨flowID, rfl⟩

/-- Claim C4: for every run record constructed by newRun, is_active holds
exactly when the persisted status is Active or Waiting, and exit_type is I
for Interrupted, C for Completed, E for Expired, F for Failed, and NULL
(the empty null.String) for Active and Waiting. -/
theorem newRun_legacy_pair_consistency (assets : List (String × Int)) (orgID sessionID : Int)
    (fr : EngineRun) (run : FlowRun) (h : newRun assets orgID sessionID fr = some run) :
    (run.isActive = true ↔ (run.status = RunStatusActive ∨ run.status = RunStatusWaiting)) ∧
    (run.status = RunStatusInterrupted → run.exitType = ExitInterrupted) ∧
    (run.status = RunStatusCompleted → run.exitType = ExitCompleted) ∧
    (run.status = RunStatusExpired → run.exitType = ExitExpired) ∧
    (run.status = RunStatusFailed → run.exitType = ExitFailed) ∧
    ((run.status = RunStatusActive ∨ run.status = RunStatusWaiting) → run.exitType = "") := by
  obtain ⟨flowID, hlk⟩ := newRun_some_flowID assets orgID sessionID fr run h
  have hshape := newRun_some_iff assets orgID sessionID fr run flowID hlk h
  subst hshape
  by_cases hA : fr.status = FlowsRunStatusActive
  · simp only [hA]
    decide
  by_cases hW : fr.status = FlowsRunStatusWaiting
  · simp only [hW]
    decide
  by_cases hC : fr.status = FlowsRunStatusCompleted
  · simp only [hC]
    decide
  by_cases hX : fr.status = FlowsRunStatusExpired
  · simp only [hX]
    decide
  by_cases hF : fr.status = FlowsRunStatusFailed
  · simp only [hF]
    decide
  simp only [runStatusMap, runStatusToExitType, if_neg hA, if_neg hW, if_neg hC, if_neg hX, if_neg hF]
  simp [bne_iff_ne, hA, hW, RunStatusActive, RunStatusWaiting, RunStatusCompleted,
    RunStatusExpired, RunStatusFailed, RunStatusInterrupted]

/-- A concrete instantiation of claim C4 at a completed engine run. -/
theorem newRun_legacy_pair_consistency_witness :
    ∃ run, newRun [("flow-uuid-1", 3)] 1 2
        { uuid := "run-1", status := "completed", createdOn := 0, modifiedOn := 1,
          exitedOn := some 1, expiresOn := none, contactID := 9, flowRefUUID := "flow-uuid-1",
          results := "", events := [], parentUUID := none, path := [] } = some run ∧
      (run.isActive = true ↔ (run.status = RunStatusActive ∨ run.status = RunStatusWaiting)) := by
  cases hrun : newRun [("flow-uuid-1", 3)] 1 2
      { uuid := "run-1", status := "completed", createdOn := 0, modifiedOn := 1,
        exitedOn := some 1, expiresOn := none, contactID := 9, flowRefUUID := "flow-uuid-1",
        results := "", events := [], parentUUID := none, path := [] } with
  | none => exact absurd hrun (by decide)
  | some run =>
    exact ⟨run, rfl, (newRun_legacy_pair_consistency _ _ _ _ run hrun).1⟩

/-- Claim C6: a run record built by newRun is responded exactly when the
events of the engine run contain an inbound-message event, and carries a parent
UUID exactly when the engine run has a parent frame. -/
theorem newRun_responded_and_parent (assets : List (String × Int)) (orgID sessionID : Int)
    (fr : EngineRun) (run : FlowRun) (h : newRun assets orgID sessionID fr = some run) :
    (run.responded = true ↔ ∃ e ∈ fr.events, e.type = TypeMsgReceived) ∧
    (run.parentUUID.isSome = true ↔ fr.parentUUID.isSome = true) := by
  obtain ⟨flowID, hlk⟩ := newRun_some_flowID assets orgID sessionID fr run h
  have hshape := newRun_some_iff assets orgID sessionID fr run flowID hlk h
  subst hshape
  constructor
  · simp [List.any_eq_true, beq_iff_eq]
  · exact Iff.rfl

/-- A concrete instantiation of claim C6: one inbound message event and a
parent frame. -/
theorem newRun_responded_and_parent_witness :
    ∃ run, newRun [("flow-uuid-2", 4)] 1 2
        { uuid := "run-2", status := "waiting", createdOn := 0, modifiedOn := 1,
          exitedOn := none, expiresOn := some 60, contactID := 9, flowRefUUID := "flow-uuid-2",
          results := "", events := [⟨"msg_received"⟩], parentUUID := some "run-parent",
          path := [] } = some run ∧
      (run.responded = true ↔ ∃ e ∈ ([⟨"msg_received"⟩] : List EngineEvent), e.type = TypeMsgReceived) := by
  cases hrun : newRun [("flow-uuid-2", 4)] 1 2
      { uuid := "run-2", status := "waiting", createdOn := 0, modifiedOn := 1,
        exitedOn := none, expiresOn := some 60, contactID := 9, flowRefUUID := "flow-uuid-2",
        results := "", events := [⟨"msg_received"⟩], parentUUID := some "run-parent",
        path := [] } with
  | none => exact absurd hrun (by decide)
  | some run =>
    exact ⟨run, rfl, (newRun_responded_and_parent _ _ _ _ run hrun).1⟩

/-- Claim C7: for a run built by newRun from an engine run with a non-empty
path, the current node UUID is the node UUID of the last step of the copied
path. -/
theorem newRun_current_node_is_last_path_node (assets : List (String × Int))
    (orgID sessionID : Int) (fr : EngineRun) (run : FlowRun)
    (h : newRun assets orgID sessionID fr = some run) (hp : fr.path ≠ []) :
    run.path.getLast?.map Step.nodeUUID = some run.currentNodeUUID := by
  obtain ⟨flowID, hlk⟩ := newRun_some_flowID assets orgID sessionID fr run h
  have hshape := newRun_some_iff assets orgID sessionID fr run flowID hlk h
  subst hshape
  have hne : fr.path.map (fun p => (⟨p.uuid, p.nodeUUID, p.arrivedOn, p.exitUUID⟩ : Step)) ≠ [] := by
    simpa using hp
  cases hl : (fr.path.map (fun p => (⟨p.uuid, p.nodeUUID, p.arrivedOn, p.exitUUID⟩ : Step))).getLast? with
  | none => exact absurd (List.getLast?_eq_none_iff.mp hl) hne
  | some st =>
    simp only [hl, Option.map_some']

/-- A concrete instantiation of claim C7 at a two-step path. -/
theorem newRun_current_node_is_last_path_node_witness :
    ∃ run, newRun [("flow-uuid-3", 5)] 1 2
        { uuid := "run-3", status := "waiting", createdOn := 0, modifiedOn := 1,
          exitedOn := none, expiresOn := some 60, contactID := 9, flowRefUUID := "flow-uuid-3",
          results := "", events := [], parentUUID := none,
          path := [⟨"step-1", "node-1", 0, "exit-1"⟩, ⟨"step-2", "node-2", 1, ""⟩] } = some run ∧
      run.path.getLast?.map Step.nodeUUID = some run.currentNodeUUID := by
  cases hrun : newRun [("flow-uuid-3", 5)] 1 2
      { uuid := "run-3", status := "waiting", createdOn := 0, modifiedOn := 1,
        exitedOn := none, expiresOn := some 60, contactID := 9, flowRefUUID := "flow-uuid-3",
        results := "", events := [], parentUUID := none,
        path := [⟨"step-1", "node-1", 0, "exit-1"⟩, ⟨"step-2", "node-2", 1, ""⟩] } with
  | none => exact absurd hrun (by decide)
  | some run =>
    exact ⟨run, rfl, newRun_current_node_is_last_path_node _ _ _ _ run hrun (by decide)⟩

/-- A concrete waiting run used to exhibit the status written by run
expiration. -/
def expireProbeRun : RunRow :=
  { id := 1, sessionID := 10, status := "W", isActive := true, exitType := "",
    exitedOn := none, modifiedOn := 0, expiresOn := some 100 }

/-- A one-run database for probing ExpireRunsAndSessions. -/
def expireProbeDB : Database := { sessions := [], runs := [expireProbeRun], connections := [] }

/-- Claim C1, evaluated on the code: expiring run 1 at now = 5 writes
exited_on = now, exit_type = E and is_active = false exactly as the claim
states, but writes the literal 'E' into the status column, which is not the
Expired character 'X' (RunStatusExpired) of the run status vocabulary. -/
theorem expire_run_writes_status_E :
    ((ExpireRunsAndSessions 5 [1] [] expireProbeDB).runs.map RunRow.status = ["E"] ∧
     (ExpireRunsAndSessions 5 [1] [] expireProbeDB).runs.map RunRow.exitedOn = [some 5] ∧
     (ExpireRunsAndSessions 5 [1] [] expireProbeDB).runs.map RunRow.exitType = [ExitExpired] ∧
     (ExpireRunsAndSessions 5 [1] [] expireProbeDB).runs.map RunRow.isActive = [false]) ∧
    ("E" : RunStatus) ≠ RunStatusExpired := by
  decide

/-- A concrete waiting session used to probe expiration with an empty run-id
set. -/
def emptyRunsProbeSession : SessionRow :=
  { id := 7, contactID := 1, sessionType := "M", status := "W", connectionID := none,
    currentFlowID := some 3, endedOn := none, waitStartedOn := some 1,
    waitExpiresOn := some 9, timeoutOn := none }

/-- A one-session database for probing ExpireRunsAndSessions with no runs. -/
def emptyRunsProbeDB : Database :=
  { sessions := [emptyRunsProbeSession], runs := [], connections := [] }

/-- Claim C2 counterexample: session 7 is passed to ExpireRunsAndSessions
together with an empty run-id set, and its row is left entirely unchanged —
still Waiting, not Expired — because the function returns as soon as it
sees an empty run-id list. -/
theorem expire_sessions_skipped_when_no_runs :
    (ExpireRunsAndSessions 5 [] [7] emptyRunsProbeDB).sessions = [emptyRunsProbeSession] ∧
    emptyRunsProbeSession.status ≠ SessionStatusExpired := by
  decide

/-- Claim C2 as amended: provided the run-id set is non-empty, every session
whose id is in the session-id set has its row set to status Expired with
ended_on now and wait_started_on, wait_expires_on, timeout_on and
current_flow_id all NULL. -/
theorem expire_sessions_amended (now : Nat) (runIDs sessionIDs : List Int) (db : Database)
    (hr : runIDs ≠ []) (s : SessionRow) (hs : s ∈ db.sessions) (hid : s.id ∈ sessionIDs) :
    { s with status := SessionStatusExpired, endedOn := some now, waitStartedOn := none,
             waitExpiresOn := none, timeoutOn := none, currentFlowID := none } ∈
      (ExpireRunsAndSessions now runIDs sessionIDs db).sessions := by
  have h1 : ¬ runIDs.length = 0 := by simpa [List.length_eq_zero] using hr
  have h2 : 0 < sessionIDs.length := List.length_pos.mpr (List.ne_nil_of_mem hid)
  unfold ExpireRunsAndSessions
  rw [if_neg h1, if_pos h2]
  have hmem := List.mem_map_of_mem
    (fun t => if t.id ∈ sessionIDs then expireSessionsSQLUpdate now t else t) hs
  have hmem' : (if s.id ∈ sessionIDs then expireSessionsSQLUpdate now s else s) ∈
      db.sessions.map (fun t => if t.id ∈ sessionIDs then expireSessionsSQLUpdate now t else t) := hmem
  rw [if_pos hid] at hmem'
  exact hmem'

/-- A concrete instantiation of the amended claim C2. -/
theorem expire_sessions_amended_witness :
    { emptyRunsProbeSession with
        status := SessionStatusExpired
        endedOn := some 5
        waitStartedOn := none
        waitExpiresOn := none
        timeoutOn := none
        currentFlowID := none } ∈
      (ExpireRunsAndSessions 5 [1] [7] emptyRunsProbeDB).sessions :=
  expire_sessions_amended 5 [1] [7] emptyRunsProbeDB (by decide) emptyRunsProbeSession
    (by decide) (by decide)

/-- Interruption leaves every session row whose status is not Waiting
unchanged, provided session ids are pairwise distinct. -/
theorem interruptSessions_preserves_nonwaiting (now : Nat) (sel : SessionRow → Bool)
    (db : Database) (huniq : db.sessions.Pairwise (fun a b => a.id ≠ b.id))
    (s : SessionRow) (hs : s ∈ db.sessions) (hnw : s.status ≠ SessionStatusWaiting) :
    s ∈ (interruptSessions now sel db).sessions := by
  have hsymm : Symmetric (fun (a b : SessionRow) => a.id ≠ b.id) := fun _ _ h => h.symm
  have hnotm : s.id ∉ matchedSessionIDs sel db := by
    intro hmem
    obtain ⟨t, ht, htid⟩ := List.mem_map.mp hmem
    obtain ⟨htmem, htcond⟩ := List.mem_filter.mp ht
    have htW : t.status = SessionStatusWaiting := by
      have hand := htcond
      simp only [Bool.and_eq_true, beq_iff_eq] at hand
      exact hand.1
    have hts : t = s := by
      by_contra hne
      exact (List.Pairwise.forall hsymm huniq htmem hs hne) htid
    rw [hts] at htW
    exact hnw htW
  have hmem := List.mem_map_of_mem
    (fun t => if t.id ∈ matchedSessionIDs sel db then interruptSessionUpdate now t else t) hs
  have hmem' : (if s.id ∈ matchedSessionIDs sel db then interruptSessionUpdate now s else s) ∈
      db.sessions.map
        (fun t => if t.id ∈ matchedSessionIDs sel db then interruptSessionUpdate now t else t) := hmem
  rw [if_neg hnotm] at hmem'
  exact hmem'

/-- Interruption leaves every run row whose status is neither Active nor
Waiting unchanged. -/
theorem interruptSessions_preserves_terminal_runs (now : Nat) (sel : SessionRow → Bool)
    (db : Database) (r : RunRow) (hr : r ∈ db.runs)
    (hA : r.status ≠ RunStatusActive) (hW : r.status ≠ RunStatusWaiting) :
    r ∈ (interruptSessions now sel db).runs := by
  have hmem := List.mem_map_of_mem
    (fun t => if t.sessionID ∈ matchedSessionIDs sel db ∧
        (t.status = RunStatusActive ∨ t.status = RunStatusWaiting)
      then interruptRunUpdate now t else t) hr
  have hmem' : (if r.sessionID ∈ matchedSessionIDs sel db ∧
        (r.status = RunStatusActive ∨ r.status = RunStatusWaiting)
      then interruptRunUpdate now r else r) ∈
      db.runs.map (fun t => if t.sessionID ∈ matchedSessionIDs sel db ∧
          (t.status = RunStatusActive ∨ t.status = RunStatusWaiting)
        then interruptRunUpdate now t else t) := hmem
  rw [if_neg (fun hc => hc.2.elim hA hW)] at hmem'
  exact hmem'

/-- Claim C3: under every interruption operation only sessions whose current
status is Waiting are moved to Interrupted: any session row whose status is
not Waiting — in particular a Completed one matched by the selector — is
kept unchanged, and any run row with a terminal status (neither Active nor
Waiting) is kept unchanged. Session ids are assumed pairwise distinct, as
they are primary keys. -/
theorem interrupt_only_touches_waiting_sessions (now : Nat) (db : Database)
    (huniq : db.sessions.Pairwise (fun a b => a.id ≠ b.id))
    (s : SessionRow) (hs : s ∈ db.sessions) (hnw : s.status ≠ SessionStatusWaiting)
    (r : RunRow) (hrr : r ∈ db.runs)
    (hterm : r.status ≠ RunStatusActive ∧ r.status ≠ RunStatusWaiting) :
    (∀ contactIDs, s ∈ (InterruptSessionsForContacts now contactIDs db).sessions ∧
        r ∈ (InterruptSessionsForContacts now contactIDs db).runs) ∧
    (∀ contactIDs sessionType,
        s ∈ (InterruptSessionsOfTypeForContacts now contactIDs sessionType db).sessions ∧
        r ∈ (InterruptSessionsOfTypeForContacts now contactIDs sessionType db).runs) ∧
    (∀ channelIDs, s ∈ (InterruptSessionsForChannels now channelIDs db).sessions ∧
        r ∈ (InterruptSessionsForChannels now channelIDs db).runs) ∧
    (∀ flowIDs, s ∈ (InterruptSessionsForFlows now flowIDs db).sessions ∧
        r ∈ (InterruptSessionsForFlows now flowIDs db).runs) := by
  refine ⟨fun contactIDs => ⟨?_, ?_⟩, fun contactIDs sessionType => ⟨?_, ?_⟩,
    fun channelIDs => ⟨?_, ?_⟩, fun flowIDs => ⟨?_, ?_⟩⟩ <;>
    first
      | exact interruptSessions_preserves_nonwaiting now _ db huniq s hs hnw
      | exact interruptSessions_preserves_terminal_runs now _ db r hrr hterm.1 hterm.2

/-- The completed session used to instantiate claim C3. -/
def interruptProbeSession : SessionRow :=
  { id := 1, contactID := 5, sessionType := "M", status := "C", connectionID := some 2,
    currentFlowID := none, endedOn := some 4, waitStartedOn := none,
    waitExpiresOn := none, timeoutOn := none }

/-- The completed run of the session above. -/
def interruptProbeRun : RunRow :=
  { id := 11, sessionID := 1, status := "C", isActive := false, exitType := "C",
    exitedOn := some 4, modifiedOn := 4, expiresOn := none }

/-- A database holding the completed session and run, with a connection on
channel 3. -/
def interruptProbeDB : Database :=
  { sessions := [interruptProbeSession], runs := [interruptProbeRun], connections := [(2, 3)] }

/-- A concrete instantiation of claim C3: interrupting the very contact of the session leaves the completed session and its completed run unchanged. -/
theorem interrupt_only_touches_waiting_sessions_witness :
    interruptProbeSession ∈ (InterruptSessionsForContacts 9 [5] interruptProbeDB).sessions ∧
    interruptProbeRun ∈ (InterruptSessionsForContacts 9 [5] interruptProbeDB).runs :=
  (interrupt_only_touches_waiting_sessions 9 interruptProbeDB (by decide)
    interruptProbeSession (by decide) (by decide)
    interruptProbeRun (by decide) (by decide)).1 [5]

/-- Claim C8: the responded flag of a session is sticky across Update calls: once
true, it remains true after any sequence of sprints applied through
Session.update. -/
theorem session_responded_sticky (s : Session) (sprints : List Sprint)
    (h : s.responded = true) : (Session.updateAll s sprints).responded = true := by
  induction sprints generalizing s with
  | nil => exact h
  | cons sp rest ih =>
    exact ih (Session.update s sp) (by simp [Session.update, h])

/-- The responded session used to instantiate claim C8. -/
def stickyProbeSession : Session :=
  { status := "W", currentFlowID := some 1, responded := true, waitStartedOn := some 0,
    waitExpiresOn := some 10, timeoutOn := none, endedOn := none, output := "o1" }

/-- A completing sprint that itself receives no input. -/
def stickyProbeSprint : Sprint :=
  { newStatus := "C", newCurrentFlowID := none, hasInput := false, newWaitStartedOn := none,
    newWaitExpiresOn := none, newTimeoutOn := none, newEndedOn := some 3, newOutput := "o2" }

/-- A concrete instantiation of claim C8: responded stays true through a
sprint without input. -/
theorem session_responded_sticky_witness :
    (Session.updateAll stickyProbeSession [stickyProbeSprint]).responded = true :=
  session_responded_sticky stickyProbeSession [stickyProbeSprint] (by decide)

/-- An interruption call whose selector rejects every session leaves the
database unchanged. -/
theorem interruptSessions_false_sel (now : Nat) (sel : SessionRow → Bool) (db : Database)
    (hsel : ∀ s, sel s = false) : interruptSessions now sel db = db := by
  have hfil : matchedSessionIDs sel db = [] := by
    unfold matchedSessionIDs
    rw [List.filter_eq_nil_iff.mpr (fun a _ => by simp [hsel a])]
    rfl
  unfold interruptSessions
  rw [hfil]
  simp

/-- Claim C9: calling any interrupt variant or the expire operation with an
empty input set is a no-op leaving every session and run row unchanged. -/
theorem empty_input_is_noop (now : Nat) (db : Database) (sessionType : String) :
    ExpireRunsAndSessions now [] [] db = db ∧
    InterruptSessionsForContacts now [] db = db ∧
    InterruptSessionsOfTypeForContacts now [] sessionType db = db ∧
    InterruptSessionsForChannels now [] db = db ∧
    InterruptSessionsForFlows now [] db = db := by
  refine ⟨by simp [ExpireRunsAndSessions], ?_, ?_, ?_, ?_⟩
  · exact interruptSessions_false_sel now _ db (fun s => by simp)
  · exact interruptSessions_false_sel now _ db (fun s => by simp)
  · exact interruptSessions_false_sel now _ db (fun s => by cases s.connectionID <;> simp)
  · exact interruptSessions_false_sel now _ db (fun s => by cases s.currentFlowID <;> simp)

/-- Claim C10: RunExpiration yields the pair (nil, nil) whenever no run with
the given id currently has status Waiting, and yields a non-nil expiration
only when a run with the given id has status W (and carries that very
expiration). -/
theorem run_expiration_requires_waiting (db : Database) (runID : Int) :
    ((∀ r ∈ db.runs, ¬(r.id = runID ∧ r.status = RunStatusWaiting)) →
      RunExpiration db runID = Except.ok none) ∧
    (∀ t, RunExpiration db runID = Except.ok (some t) →
      ∃ r ∈ db.runs, r.id = runID ∧ r.status = RunStatusWaiting ∧ r.expiresOn = some t) := by
  constructor
  · intro hno
    unfold RunExpiration
    have hfil : db.runs.filter (fun r => r.id == runID && r.status == "W") = [] := by
      refine List.filter_eq_nil_iff.mpr (fun r hr => ?_)
      have hnr := hno r hr
      simp only [Bool.and_eq_true, beq_iff_eq]
      exact fun hc => hnr hc
    rw [hfil]
    rfl
  · intro t h
    unfold RunExpiration at h
    cases hfil : db.runs.filter (fun r => r.id == runID && r.status == "W") with
    | nil =>
      rw [hfil] at h
      exact absurd h (by simp)
    | cons r rest =>
      rw [hfil] at h
      have hrmem : r ∈ db.runs.filter (fun r => r.id == runID && r.status == "W") := by
        rw [hfil]; exact List.mem_cons_self r rest
      obtain ⟨hrdb, hrcond⟩ := List.mem_filter.mp hrmem
      simp only [Bool.and_eq_true, beq_iff_eq] at hrcond
      cases hexp : r.expiresOn with
      | none =>
        rw [List.map_cons, hexp] at h
        exact absurd h (by simp)
      | some e =>
        rw [List.map_cons, hexp] at h
        simp only [Except.ok.injEq, Option.some.injEq] at h
        exact ⟨r, hrdb, hrcond.1, hrcond.2, by rw [hexp, h]⟩

/-- The non-waiting run used to instantiate claim C10. -/
def expirationProbeRun : RunRow :=
  { id := 1, sessionID := 10, status := "C", isActive := false, exitType := "C",
    exitedOn := some 4, modifiedOn := 4, expiresOn := some 100 }

/-- A one-run database with only a completed run. -/
def expirationProbeDB : Database :=
  { sessions := [], runs := [expirationProbeRun], connections := [] }

/-- A concrete instantiation of claim C10: run 1 exists but is Completed, so
RunExpiration yields (nil, nil). -/
theorem run_expiration_requires_waiting_witness :
    RunExpiration expirationProbeDB 1 = Except.ok none :=
  (run_expiration_requires_waiting expirationProbeDB 1).1 (by decide)

end Mailroom
